import Mathlib

set_option autoImplicit false

/-!
Shallow embedding of the two book services of this repository,
`src/project1/books.py` (title-keyed, plain dict records) and
`src/project2/books.py` (id-keyed, validated records), together with
theorems checking the specification's claims about them.

Each Python handler mutates the module-level list `BOOKS`; here the list is
passed and returned explicitly.  An `Option`/`Except` result models the only
exceptional path present in the source, `HTTPException(404)`.
-/

namespace LearnFastapi

/-- Models Python `str.casefold` as used by project1 for case-insensitive
comparison.  All data and comparisons in the repository are ASCII, where
lower-casing each character agrees with `casefold`; the map runs over the
underlying character list so that concrete instances evaluate. -/
def casefold (s : String) : String := String.mk (s.data.map Char.toLower)

/-- The error outcomes an endpoint of this repository can report: the
`HTTPException(404)` raised by project2's handlers, and the framework-level
rejection of a request violating the `Field` constraints of `BookRequest`. -/
inductive ApiError where
  | notFound
  | validation
  deriving DecidableEq, Repr

namespace Project1

/-- A record of the title-keyed variant: the dicts held in `BOOKS` of
`src/project1/books.py` (keys `title`, `author`, `category`). -/
structure Book where
  title : String
  author : String
  category : String
  deriving DecidableEq, Repr

/-- The seed collection of `src/project1/books.py`. -/
def BOOKS : List Book :=
  [ ⟨"Title One", "Author One", "science"⟩,
    ⟨"Title Two", "Author Two", "science"⟩,
    ⟨"Title Three", "Author Three", "history"⟩,
    ⟨"Title Four", "Author Four", "math"⟩,
    ⟨"Title Five", "Author Five", "math"⟩,
    ⟨"Title Six", "Author Two", "math"⟩ ]

/-- `GET /books/`: optional case-insensitive category filter.  Python's
`if category:` is false both for `None` and for the empty string, in which
case the whole collection is returned.  The loop appends each matching book
to an accumulator list. -/
def get_all_book (category : Option String) (books : List Book) : List Book :=
  match category with
  | some c =>
      if c ≠ "" then
        books.foldl
          (fun acc b => if casefold b.category == casefold c then acc ++ [b] else acc) []
      else books
  | none => books

/-- `GET /books/count`: the number of records. -/
def count_books (books : List Book) : Nat := books.length

/-- `GET /books/by_author/{author}`: case-insensitive author filter,
appending matches to an accumulator list. -/
def get_books_by_author (author : String) (books : List Book) : List Book :=
  books.foldl
    (fun acc b => if casefold b.author == casefold author then acc ++ [b] else acc) []

/-- `GET /books/{book_title}`: returns the first record whose title matches
case-insensitively; when none matches the loop falls through and the handler
returns `None`. -/
def get_books_by_title (book_title : String) : List Book → Option Book
  | [] => none
  | b :: bs =>
      if casefold b.title == casefold book_title then some b
      else get_books_by_title book_title bs

/-- The HTTP outcome of `GET /books/{book_title}`: the handler body contains
no `HTTPException`, so the response is always a success whose body is the
found record or null. -/
def get_books_by_title_response (book_title : String) (books : List Book) :
    Except ApiError (Option Book) :=
  Except.ok (get_books_by_title book_title books)

/-- `GET /author/{author}/` with query parameter `category`: conjunction of
the two case-insensitive filters. -/
def read_author_category_by_query (author category : String) (books : List Book) :
    List Book :=
  books.foldl
    (fun acc b =>
      if casefold b.author == casefold author && casefold b.category == casefold category
      then acc ++ [b] else acc) []

/-- `POST /books/create_book`: appends the request body unconditionally. -/
def create_book (new_book : Book) (books : List Book) : List Book :=
  books ++ [new_book]

/-- `PUT /books/update_book`: the index loop replaces every record whose
title matches the supplied record's title case-insensitively (there is no
`break`), leaving all other positions untouched. -/
def update_book (updated_book : Book) (books : List Book) : List Book :=
  books.map
    (fun b => if casefold b.title == casefold updated_book.title then updated_book else b)

/-- The HTTP outcome of `PUT /books/update_book`: the handler raises no
exception, so the response is always a success. -/
def update_book_response (updated_book : Book) (books : List Book) :
    Except ApiError (List Book) :=
  Except.ok (update_book updated_book books)

/-- `DELETE /books/delete_book/{book_title}`: pops the first record whose
title matches case-insensitively and breaks; when none matches the loop ends
with the list unchanged and no exception. -/
def delete_book (book_title : String) : List Book → List Book
  | [] => []
  | b :: bs =>
      if casefold b.title == casefold book_title then bs
      else b :: delete_book book_title bs

/-- The HTTP outcome of `DELETE /books/delete_book/{book_title}`: the
handler raises no exception, so the response is always a success. -/
def delete_book_response (book_title : String) (books : List Book) :
    Except ApiError (List Book) :=
  Except.ok (delete_book book_title books)

/-! ### Routing model for project1

The decorators of `src/project1/books.py`, in declaration order. -/

/-- HTTP method of a route. -/
inductive Method where
  | get
  | post
  | put
  | delete
  deriving DecidableEq, Repr

/-- One segment of a path pattern: a literal segment or a dynamic parameter
capturing the segment's value. -/
inductive Seg where
  | lit (s : String)
  | capture (name : String)
  deriving DecidableEq, Repr

/-- The handlers of `src/project1/books.py`. -/
inductive Handler where
  | getAllBook
  | countBooks
  | getBooksByAuthor
  | getBooksByTitle
  | readAuthorCategoryByQuery
  | createBook
  | updateBook
  | deleteBook
  deriving DecidableEq, Repr

/-- A registered route: method, path pattern, handler. -/
structure Route where
  method : Method
  pattern : List Seg
  handler : Handler
  deriving DecidableEq, Repr

/-- The route table of `src/project1/books.py` in the order the decorators
appear in the source (trailing slashes are not distinguished, per the
module's own note that `/path` and `/path/` are the same route). -/
def routes : List Route :=
  [ ⟨Method.get, [Seg.lit "books"], Handler.getAllBook⟩,
    ⟨Method.get, [Seg.lit "books", Seg.lit "count"], Handler.countBooks⟩,
    ⟨Method.get, [Seg.lit "books", Seg.lit "by_author", Seg.capture "author"],
      Handler.getBooksByAuthor⟩,
    ⟨Method.get, [Seg.lit "books", Seg.capture "book_title"], Handler.getBooksByTitle⟩,
    ⟨Method.get, [Seg.lit "author", Seg.capture "author"],
      Handler.readAuthorCategoryByQuery⟩,
    ⟨Method.post, [Seg.lit "books", Seg.lit "create_book"], Handler.createBook⟩,
    ⟨Method.put, [Seg.lit "books", Seg.lit "update_book"], Handler.updateBook⟩,
    ⟨Method.delete, [Seg.lit "books", Seg.lit "delete_book", Seg.capture "book_title"],
      Handler.deleteBook⟩ ]

/-- Matches a path (list of segments) against a pattern, producing the
bindings of the dynamic parameters; a literal segment matches only itself,
and pattern and path must have the same length. -/
def matchSegs : List Seg → List String → Option (List (String × String))
  | [], [] => some []
  | Seg.lit s :: ps, x :: xs => if s == x then matchSegs ps xs else none
  | Seg.capture n :: ps, x :: xs => (matchSegs ps xs).map (fun bs => (n, x) :: bs)
  | _, _ => none

/-- Modelled from the spec: the framework (FastAPI) performing request
dispatch is not part of the repository; per the spec's routing glossary and
the module's own routing notes, a request is handled by the first registered
route whose method and path pattern match, in declaration order. -/
def dispatchFrom : List Route → Method → List String → Option (Handler × List (String × String))
  | [], _, _ => none
  | r :: rs, m, path =>
      if r.method = m then
        match matchSegs r.pattern path with
        | some bs => some (r.handler, bs)
        | none => dispatchFrom rs m path
      else dispatchFrom rs m path

/-- Dispatch over the route table of `src/project1/books.py`. -/
def dispatch (m : Method) (path : List String) :
    Option (Handler × List (String × String)) :=
  dispatchFrom routes m path

end Project1

namespace Project2

/-- The `Book` class of `src/project2/books.py`. -/
structure Book where
  id : Int
  title : String
  author : String
  description : String
  rating : Int
  published_year : Int
  deriving DecidableEq, Repr

/-- The `BookRequest` pydantic model: `id` is optional ("ID is not needed on
create", default `None`); the remaining fields carry `Field` constraints,
captured by `bookRequestValid` below. -/
structure BookRequest where
  id : Option Int
  title : String
  author : String
  description : String
  rating : Int
  published_year : Int
  deriving DecidableEq, Repr

/-- The `Field` constraints of `BookRequest`: `title` has `min_length=3`,
`author` `min_length=1`, `description` `min_length=1, max_length=100`,
`rating` `ge=1, le=5`, `published_year` `ge=1000, le=2100`. -/
def bookRequestValid (r : BookRequest) : Bool :=
  decide (3 ≤ r.title.length) && decide (1 ≤ r.author.length) &&
  decide (1 ≤ r.description.length) && decide (r.description.length ≤ 100) &&
  decide (1 ≤ r.rating) && decide (r.rating ≤ 5) &&
  decide (1000 ≤ r.published_year) && decide (r.published_year ≤ 2100)

/-- `find_book_id` of `src/project2/books.py`: sets the book's id to
`BOOKS[-1].id + 1` when the collection is non-empty and to `1` otherwise. -/
def find_book_id (book : Book) (books : List Book) : Book :=
  match books.getLast? with
  | some last => { book with id := last.id + 1 }
  | none => { book with id := 1 }

/-- The seed collection of `src/project2/books.py`. -/
def BOOKS : List Book :=
  [ ⟨1, "Book1", "Author1", "Description1", 5, 2001⟩,
    ⟨2, "Book2", "Author2", "Description2", 4, 2001⟩,
    ⟨3, "Book3", "Author3", "Description3", 3, 2002⟩,
    ⟨4, "Book4", "Author4", "Description4", 5, 2002⟩,
    ⟨5, "Book5", "Author5", "Description5", 2, 2001⟩,
    ⟨6, "Book6", "Author6", "Description6", 1, 2002⟩ ]

/-- `Book(**book_request.model_dump())`: a `Book` built from the request's
fields.  A request with `id = none` gives the Python attribute `None`; in
the source every such book either has its id overwritten at once
(`find_book_id` in create) or is only built when `id` equalled an existing
integer id (update), so reading `none` as `0` here is observationally
irrelevant. -/
def bookOfRequest (r : BookRequest) : Book :=
  ⟨r.id.getD 0, r.title, r.author, r.description, r.rating, r.published_year⟩

/-- `GET /books/all_books`: the whole collection. -/
def get_all_books (books : List Book) : List Book := books

/-- `GET /books/` with query parameter `book_rating`: appends each record of
that exact rating to an accumulator list. -/
def read_book_by_rating (book_rating : Int) (books : List Book) : List Book :=
  books.foldl (fun acc b => if b.rating == book_rating then acc ++ [b] else acc) []

/-- `GET /books/year_filer/` with query parameter `published_year`: appends
each record of that exact year to an accumulator list. -/
def read_book_by_published_year (published_year : Int) (books : List Book) : List Book :=
  books.foldl (fun acc b => if b.published_year == published_year then acc ++ [b] else acc) []

/-- `GET /books/{book_id}`: returns the first record with that id;
`none` models `raise HTTPException(404)` when no record matches. -/
def read_book_by_id (book_id : Int) : List Book → Option Book
  | [] => none
  | b :: bs => if b.id == book_id then some b else read_book_by_id book_id bs

/-- `POST /create_book/` handler body: builds the book from the request and
appends it with the id assigned by `find_book_id`. -/
def create_book (r : BookRequest) (books : List Book) : List Book :=
  books ++ [find_book_id (bookOfRequest r) books]

/-- `PUT /books/update_book/` handler body: replaces the first record whose
id equals the request's id (an `id = none` request matches nothing, as
Python's `int == None` is false) and breaks; `none` models the
`HTTPException(404)` raised when no record matched. -/
def update_book (r : BookRequest) : List Book → Option (List Book)
  | [] => none
  | b :: bs =>
      if r.id = some b.id then some (bookOfRequest r :: bs)
      else (update_book r bs).map (fun l => b :: l)

/-- `DELETE /books/{book_id}` handler body: pops the first record with the
given id and breaks; `none` models the `HTTPException(404)` raised when no
record matched. -/
def delete_book (book_id : Int) : List Book → Option (List Book)
  | [] => none
  | b :: bs =>
      if b.id == book_id then some bs
      else (delete_book book_id bs).map (fun l => b :: l)

/-- The update endpoint as a state transformer: the Python handler mutates
the global list only inside the matching branch, so when it raises 404 the
collection is exactly the input list. -/
def update_book_state (r : BookRequest) (books : List Book) :
    List Book × Option ApiError :=
  match update_book r books with
  | some l => (l, none)
  | none => (books, some ApiError.notFound)

/-- The delete endpoint as a state transformer: on 404 the collection is
exactly the input list. -/
def delete_book_state (book_id : Int) (books : List Book) :
    List Book × Option ApiError :=
  match delete_book book_id books with
  | some l => (l, none)
  | none => (books, some ApiError.notFound)

/-- Modelled from the spec: FastAPI/pydantic rejects a request violating the
`Field` constraints of `BookRequest` before the handler body runs, so the
collection is mutated only for a valid request.  `POST /create_book/` as a
state transformer. -/
def post_create_book (r : BookRequest) (books : List Book) :
    List Book × Option ApiError :=
  if bookRequestValid r then (create_book r books, none)
  else (books, some ApiError.validation)

/-- Modelled from the spec: as for `post_create_book`, the update handler
runs only for a request passing field-constraint validation.
`PUT /books/update_book/` as a state transformer. -/
def put_update_book (r : BookRequest) (books : List Book) :
    List Book × Option ApiError :=
  if bookRequestValid r then update_book_state r books
  else (books, some ApiError.validation)

/-- The id value `find_book_id` assigns: one more than the id of the last
stored record, or 1 for an empty collection. -/
def next_book_id (books : List Book) : Int :=
  match books.getLast? with
  | some last => last.id + 1
  | none => 1

/-- The id the spec's words prescribe for a newly created record: one more
than the maximum identifier present in the collection, and 1 when the
collection is empty. -/
def spec_next_id (books : List Book) : Int :=
  match books.map Book.id with
  | [] => 1
  | i :: is => is.foldl max i + 1

end Project2

/-! ### Concrete inputs used by witnesses and counterexamples -/

/-- The example request of `BookRequest.model_config` (no id supplied). -/
def exampleReq : Project2.BookRequest :=
  ⟨none, "A new book", "Author 1", "A description for a book", 5, 2025⟩

/-- A request violating every field constraint. -/
def invalidReq : Project2.BookRequest :=
  ⟨none, "ab", "", "", 6, 999⟩

/-- A collection whose last record does not carry the maximal id. -/
def cexBooksC1 : List Project2.Book :=
  [ ⟨2, "Book2", "Author2", "Description2", 4, 2001⟩,
    ⟨1, "Book1", "Author1", "Description1", 5, 2001⟩ ]

/-- An update request targeting id 2. -/
def updateReq2 : Project2.BookRequest :=
  ⟨some 2, "New Title", "New Author", "New Description", 3, 2010⟩

/-! ### Helper lemmas -/

/-- The append-accumulator loop used by every filter handler computes
`List.filter`. -/
theorem foldl_filter_eq {α : Type} (p : α → Bool) (l : List α) :
    ∀ acc : List α,
      l.foldl (fun acc b => if p b then acc ++ [b] else acc) acc = acc ++ l.filter p := by
  induction l with
  | nil => intro acc; simp
  | cons x t ih =>
      intro acc
      cases h : p x <;> simp [h, List.filter_cons, ih]

/-- A map whose function fixes every element of a list fixes the list. -/
theorem map_eq_self_of_fixes {α : Type} (f : α → α) (l : List α)
    (h : ∀ x ∈ l, f x = x) : l.map f = l := by
  induction l with
  | nil => rfl
  | cons x t ih =>
      rw [List.map_cons, h x (List.mem_cons_self x t),
        ih (fun y hy => h y (List.mem_cons_of_mem x hy))]

/-- In a `≤`-chain the last element is the running maximum. -/
theorem getLast?_of_chain_le (l : List Int) :
    ∀ i : Int, List.Chain' (fun a b => a ≤ b) (i :: l) →
      (i :: l).getLast? = some (l.foldl max i) := by
  induction l with
  | nil => intro i _; rfl
  | cons j t ih =>
      intro i hc
      rw [List.chain'_cons] at hc
      rw [List.getLast?_cons_cons, ih j hc.2]
      simp [max_eq_right hc.1]

/-- `update_book` of project2 reports 404 when no record carries the
request's id. -/
theorem update_book2_none {books : List Project2.Book} {r : Project2.BookRequest}
    (h : ∀ b ∈ books, r.id ≠ some b.id) : Project2.update_book r books = none := by
  induction books with
  | nil => rfl
  | cons b bs ih =>
      have hb := h b (List.mem_cons_self b bs)
      have ht := ih (fun x hx => h x (List.mem_cons_of_mem b hx))
      simp [Project2.update_book, hb, ht]

/-- `update_book` of project2 replaces the first record carrying the
request's id and leaves every other position unchanged. -/
theorem update_book2_found (pre post : List Project2.Book) (b : Project2.Book)
    (r : Project2.BookRequest) (hpre : ∀ x ∈ pre, r.id ≠ some x.id)
    (hb : r.id = some b.id) :
    Project2.update_book r (pre ++ b :: post) =
      some (pre ++ Project2.bookOfRequest r :: post) := by
  induction pre with
  | nil => simp [Project2.update_book, hb]
  | cons x xs ih =>
      have hx := hpre x (List.mem_cons_self x xs)
      simp [Project2.update_book, hx,
        ih (fun y hy => hpre y (List.mem_cons_of_mem x hy))]

/-- `delete_book` of project2 reports 404 when no record carries the id. -/
theorem delete_book2_none {books : List Project2.Book} {i : Int}
    (h : ∀ b ∈ books, b.id ≠ i) : Project2.delete_book i books = none := by
  induction books with
  | nil => rfl
  | cons b bs ih =>
      have hb := h b (List.mem_cons_self b bs)
      have ht := ih (fun x hx => h x (List.mem_cons_of_mem b hx))
      simp [Project2.delete_book, hb, ht]

/-- `delete_book` of project2 removes the first record carrying the id and
leaves every other position unchanged. -/
theorem delete_book2_found (pre post : List Project2.Book) (b : Project2.Book)
    (i : Int) (hpre : ∀ x ∈ pre, x.id ≠ i) (hb : b.id = i) :
    Project2.delete_book i (pre ++ b :: post) = some (pre ++ post) := by
  induction pre with
  | nil => simp [Project2.delete_book, hb]
  | cons x xs ih =>
      have hx := hpre x (List.mem_cons_self x xs)
      simp [Project2.delete_book, hx,
        ih (fun y hy => hpre y (List.mem_cons_of_mem x hy))]

/-- `read_book_by_id` reports 404 when no record carries the id. -/
theorem read_book_by_id_none {books : List Project2.Book} {i : Int}
    (h : ∀ b ∈ books, b.id ≠ i) : Project2.read_book_by_id i books = none := by
  induction books with
  | nil => rfl
  | cons b bs ih =>
      have hb := h b (List.mem_cons_self b bs)
      have ht := ih (fun x hx => h x (List.mem_cons_of_mem b hx))
      simp [Project2.read_book_by_id, hb, ht]

/-- `delete_book` of project1 removes the first case-insensitive title match
and leaves every other position unchanged. -/
theorem delete_book1_found (pre post : List Project1.Book) (b : Project1.Book)
    (t : String) (hpre : ∀ x ∈ pre, casefold x.title ≠ casefold t)
    (hb : casefold b.title = casefold t) :
    Project1.delete_book t (pre ++ b :: post) = pre ++ post := by
  induction pre with
  | nil => simp [Project1.delete_book, hb]
  | cons x xs ih =>
      have hx := hpre x (List.mem_cons_self x xs)
      simp [Project1.delete_book, hx,
        ih (fun y hy => hpre y (List.mem_cons_of_mem x hy))]

/-- `delete_book` of project1 leaves the collection unchanged when no title
matches (and, per its response wrapper, reports no error). -/
theorem delete_book1_nomatch {books : List Project1.Book} {t : String}
    (h : ∀ b ∈ books, casefold b.title ≠ casefold t) :
    Project1.delete_book t books = books := by
  induction books with
  | nil => rfl
  | cons b bs ih =>
      have hb := h b (List.mem_cons_self b bs)
      have ht := ih (fun x hx => h x (List.mem_cons_of_mem b hx))
      simp [Project1.delete_book, hb, ht]

/-- `get_books_by_title` returns the first case-insensitive title match. -/
theorem get_books_by_title_found (pre post : List Project1.Book)
    (b : Project1.Book) (t : String)
    (hpre : ∀ x ∈ pre, casefold x.title ≠ casefold t)
    (hb : casefold b.title = casefold t) :
    Project1.get_books_by_title t (pre ++ b :: post) = some b := by
  induction pre with
  | nil => simp [Project1.get_books_by_title, hb]
  | cons x xs ih =>
      have hx := hpre x (List.mem_cons_self x xs)
      simp [Project1.get_books_by_title, hx,
        ih (fun y hy => hpre y (List.mem_cons_of_mem x hy))]

/-- `get_books_by_title` returns null when no title matches. -/
theorem get_books_by_title_nomatch {books : List Project1.Book} {t : String}
    (h : ∀ b ∈ books, casefold b.title ≠ casefold t) :
    Project1.get_books_by_title t books = none := by
  induction books with
  | nil => rfl
  | cons b bs ih =>
      have hb := h b (List.mem_cons_self b bs)
      have ht := ih (fun x hx => h x (List.mem_cons_of_mem b hx))
      simp [Project1.get_books_by_title, hb, ht]

/-! ### Claims -/

/-- C1, counterexample: on a collection whose last record does not carry the
maximal id, `create_book` stores `BOOKS[-1].id + 1` (here 3), not one plus
the maximum id (here would be 3 = 2 + 1): with ids `[2, 1]` the stored id is
2 while the spec's value is 3. -/
theorem create_book_id_not_max_plus_one :
    ((Project2.create_book exampleReq cexBooksC1).getLast?).map Project2.Book.id ≠
      some (Project2.spec_next_id cexBooksC1) := by
  decide

/-- C1, amended: `create_book` appends the request's fields with the id of
the last stored record plus one (1 for an empty collection); whenever the
stored ids are in nondecreasing order — as in every state reachable from the
seed — this coincides with one plus the maximum id. -/
theorem create_book_id_assignment (books : List Project2.Book)
    (r : Project2.BookRequest) :
    Project2.create_book r books =
      books ++ [{ Project2.bookOfRequest r with id := Project2.next_book_id books }] ∧
    (List.Chain' (fun a b => a.id ≤ b.id) books →
      Project2.next_book_id books = Project2.spec_next_id books) := by
  constructor
  · unfold Project2.create_book Project2.find_book_id Project2.next_book_id
    cases books.getLast? <;> simp
  · intro hc
    cases books with
    | nil => rfl
    | cons b bs =>
        have hmap : List.Chain' (fun x y : Int => x ≤ y)
            (b.id :: bs.map Project2.Book.id) := by
          have h2 := (List.chain'_map (Project2.Book.id)).mpr hc
          simpa using h2
        have hfold := getLast?_of_chain_le (bs.map Project2.Book.id) b.id hmap
        cases hl : (b :: bs).getLast? with
        | none => simp [List.getLast?_eq_none_iff] at hl
        | some last =>
            have hml : ((b :: bs).map Project2.Book.id).getLast? = some last.id := by
              rw [List.getLast?_map, hl]; rfl
            have heq : some last.id =
                some ((bs.map Project2.Book.id).foldl max b.id) := by
              rw [← hml]
              simpa using hfold
            have hid := Option.some.inj heq
            have hnext : Project2.next_book_id (b :: bs) = last.id + 1 := by
              unfold Project2.next_book_id
              rw [hl]
            have hspec : Project2.spec_next_id (b :: bs) =
                (bs.map Project2.Book.id).foldl max b.id + 1 := rfl
            rw [hnext, hspec, hid]

/-- C1, witness: on the seed collection (sorted ids 1..6) the created record
gets id 7, one plus the maximum. -/
theorem create_book_id_assignment_check :
    Project2.create_book exampleReq Project2.BOOKS =
      Project2.BOOKS ++
        [{ Project2.bookOfRequest exampleReq with
            id := Project2.next_book_id Project2.BOOKS }] ∧
    Project2.next_book_id Project2.BOOKS = Project2.spec_next_id Project2.BOOKS :=
  ⟨(create_book_id_assignment Project2.BOOKS exampleReq).1,
   (create_book_id_assignment Project2.BOOKS exampleReq).2
     (by simp [Project2.BOOKS, List.chain'_cons])⟩

/-- C9: the id stored by `create_book` never depends on the id supplied in
the request: two create requests identical except for their id field leave
the collection in the same state, because `find_book_id` overwrites the id
before the append. -/
theorem create_book_ignores_request_id (books : List Project2.Book)
    (r : Project2.BookRequest) (i : Option Int) :
    Project2.create_book { r with id := i } books = Project2.create_book r books := by
  unfold Project2.create_book Project2.find_book_id Project2.bookOfRequest
  cases books.getLast? <;> rfl

/-- C9, witness: supplying id 99 in the example create request leaves the
resulting collection identical to the one created without an id. -/
theorem create_book_ignores_request_id_check :
    Project2.create_book { exampleReq with id := some 99 } Project2.BOOKS =
      Project2.create_book exampleReq Project2.BOOKS :=
  create_book_ignores_request_id Project2.BOOKS exampleReq (some 99)

/-- C2: when the key is unique (there is one matching record, as the spec's
data model prescribes for ids), update replaces exactly that record with the
supplied one and every other record is unchanged and keeps its position —
for project2 keyed by id (the handler stops at the first match, so
uniqueness is only needed before the match) and for project1 keyed by title
case-insensitively (the handler has no `break`, so uniqueness is needed on
both sides). -/
theorem update_replaces_only_target :
    (∀ (pre post : List Project2.Book) (b : Project2.Book) (r : Project2.BookRequest),
        (∀ x ∈ pre, r.id ≠ some x.id) → r.id = some b.id →
        Project2.update_book r (pre ++ b :: post) =
          some (pre ++ Project2.bookOfRequest r :: post)) ∧
    (∀ (pre post : List Project1.Book) (b u : Project1.Book),
        (∀ x ∈ pre, casefold x.title ≠ casefold u.title) →
        casefold b.title = casefold u.title →
        (∀ x ∈ post, casefold x.title ≠ casefold u.title) →
        Project1.update_book u (pre ++ b :: post) = pre ++ u :: post) := by
  constructor
  · intro pre post b r hpre hb
    exact update_book2_found pre post b r hpre hb
  · intro pre post b u hpre hb hpost
    unfold Project1.update_book
    rw [List.map_append, List.map_cons,
      map_eq_self_of_fixes _ pre (fun x hx => by simp [beq_iff_eq, hpre x hx]),
      map_eq_self_of_fixes _ post (fun x hx => by simp [beq_iff_eq, hpost x hx])]
    simp [beq_iff_eq, hb]

/-- C2, witness: updating id 2 in a three-record id-keyed collection and
title "title TWO" in a three-record title-keyed collection replaces exactly
the middle record. -/
theorem update_replaces_only_target_check :
    Project2.update_book updateReq2
        ([⟨1, "Book1", "Author1", "Description1", 5, 2001⟩] ++
          ⟨2, "Book2", "Author2", "Description2", 4, 2001⟩ ::
            [⟨3, "Book3", "Author3", "Description3", 3, 2002⟩]) =
      some ([⟨1, "Book1", "Author1", "Description1", 5, 2001⟩] ++
        Project2.bookOfRequest updateReq2 ::
          [⟨3, "Book3", "Author3", "Description3", 3, 2002⟩]) ∧
    Project1.update_book ⟨"title TWO", "New Author", "fiction"⟩
        ([⟨"Title One", "Author One", "science"⟩] ++
          ⟨"Title Two", "Author Two", "science"⟩ ::
            [⟨"Title Three", "Author Three", "history"⟩]) =
      [⟨"Title One", "Author One", "science"⟩] ++
        ⟨"title TWO", "New Author", "fiction"⟩ ::
          [⟨"Title Three", "Author Three", "history"⟩] :=
  ⟨update_replaces_only_target.1 _ _ _ _ (by decide) (by decide),
   update_replaces_only_target.2 _ _ _ _ (by decide) (by decide) (by decide)⟩

/-- C3, counterexample: project1's delete handler has no not-found branch:
deleting a title absent from the seed collection leaves it unchanged and
responds with success, not with a 404-equivalent error. -/
theorem delete_book1_missing_not_reported :
    (Project1.BOOKS.all fun b => casefold b.title != casefold "Unknown") = true ∧
    Project1.delete_book_response "Unknown" Project1.BOOKS ≠
      Except.error ApiError.notFound := by
  refine ⟨by decide, fun h => Except.noConfusion h⟩

/-- C3, amended: the id-keyed variant's delete removes exactly the first
record carrying the target id or reports 404 when none matches; the
title-keyed variant's delete removes exactly the first case-insensitive
title match, but when none matches it leaves the collection unchanged and
responds with success rather than not-found. -/
theorem delete_removes_one_match :
    (∀ (pre post : List Project2.Book) (b : Project2.Book) (i : Int),
        (∀ x ∈ pre, x.id ≠ i) → b.id = i →
        Project2.delete_book i (pre ++ b :: post) = some (pre ++ post)) ∧
    (∀ (books : List Project2.Book) (i : Int), (∀ x ∈ books, x.id ≠ i) →
        Project2.delete_book i books = none) ∧
    (∀ (pre post : List Project1.Book) (b : Project1.Book) (t : String),
        (∀ x ∈ pre, casefold x.title ≠ casefold t) → casefold b.title = casefold t →
        Project1.delete_book t (pre ++ b :: post) = pre ++ post) ∧
    (∀ (books : List Project1.Book) (t : String),
        (∀ x ∈ books, casefold x.title ≠ casefold t) →
        Project1.delete_book_response t books = Except.ok books) :=
  ⟨fun pre post b i hpre hb => delete_book2_found pre post b i hpre hb,
   fun _ _ h => delete_book2_none h,
   fun pre post b t hpre hb => delete_book1_found pre post b t hpre hb,
   fun _ t h => by
     unfold Project1.delete_book_response
     rw [delete_book1_nomatch h]⟩

/-- C3, witness: deleting id 2 removes exactly the middle record; deleting
id 9 from the seed reports 404; deleting "title two" removes exactly the
middle record; deleting a missing title responds with the unchanged list. -/
theorem delete_removes_one_match_check :
    Project2.delete_book 2
        ([⟨1, "Book1", "Author1", "Description1", 5, 2001⟩] ++
          ⟨2, "Book2", "Author2", "Description2", 4, 2001⟩ ::
            [⟨3, "Book3", "Author3", "Description3", 3, 2002⟩]) =
      some ([⟨1, "Book1", "Author1", "Description1", 5, 2001⟩] ++
        [⟨3, "Book3", "Author3", "Description3", 3, 2002⟩]) ∧
    Project2.delete_book 9 Project2.BOOKS = none ∧
    Project1.delete_book "title two"
        ([⟨"Title One", "Author One", "science"⟩] ++
          ⟨"Title Two", "Author Two", "science"⟩ ::
            [⟨"Title Three", "Author Three", "history"⟩]) =
      [⟨"Title One", "Author One", "science"⟩] ++
        [⟨"Title Three", "Author Three", "history"⟩] ∧
    Project1.delete_book_response "Missing" Project1.BOOKS =
      Except.ok Project1.BOOKS :=
  ⟨delete_removes_one_match.1 _ _ _ _ (by decide) (by decide),
   delete_removes_one_match.2.1 _ _ (by decide),
   delete_removes_one_match.2.2.1 _ _ _ _ (by decide) (by decide),
   delete_removes_one_match.2.2.2 _ _ (by decide)⟩

/-- C4, counterexample: the title-keyed variant's get-by-title handler does
not report not-found: looking up a title absent from the seed collection
yields a successful response with a null body, not a 404-equivalent error. -/
theorem get_by_title_missing_not_404 :
    (Project1.BOOKS.all fun b => casefold b.title != casefold "Nothing Here") = true ∧
    Project1.get_books_by_title_response "Nothing Here" Project1.BOOKS ≠
      Except.error ApiError.notFound := by
  refine ⟨by decide, fun h => Except.noConfusion h⟩

/-- C4, amended: only the id-keyed variant surfaces not-found: its
get-by-id, update and delete handlers report 404 exactly when the target id
is absent; the title-keyed variant's get-by-title returns a successful null
response and its update and delete leave the collection unchanged with a
successful response when the target title is absent. -/
theorem not_found_reporting :
    (∀ (books : List Project2.Book) (i : Int), (∀ b ∈ books, b.id ≠ i) →
        Project2.read_book_by_id i books = none) ∧
    (∀ (books : List Project2.Book) (r : Project2.BookRequest),
        (∀ b ∈ books, r.id ≠ some b.id) →
        Project2.update_book_state r books = (books, some ApiError.notFound)) ∧
    (∀ (books : List Project2.Book) (i : Int), (∀ b ∈ books, b.id ≠ i) →
        Project2.delete_book_state i books = (books, some ApiError.notFound)) ∧
    (∀ (books : List Project1.Book) (t : String),
        (∀ b ∈ books, casefold b.title ≠ casefold t) →
        Project1.get_books_by_title_response t books = Except.ok none ∧
        Project1.delete_book_response t books = Except.ok books) ∧
    (∀ (books : List Project1.Book) (u : Project1.Book),
        (∀ b ∈ books, casefold b.title ≠ casefold u.title) →
        Project1.update_book_response u books = Except.ok books) :=
  ⟨fun _ _ h => read_book_by_id_none h,
   fun _ _ h => by
     unfold Project2.update_book_state
     rw [update_book2_none h],
   fun _ _ h => by
     unfold Project2.delete_book_state
     rw [delete_book2_none h],
   fun _ t h => by
     refine ⟨?_, ?_⟩
     · unfold Project1.get_books_by_title_response
       rw [get_books_by_title_nomatch h]
     · unfold Project1.delete_book_response
       rw [delete_book1_nomatch h],
   fun books u h => by
     unfold Project1.update_book_response Project1.update_book
     rw [map_eq_self_of_fixes _ books (fun x hx => by simp [beq_iff_eq, h x hx])]⟩

/-- C4, witness: id 42 is absent from the seed id-keyed collection, so
get/update/delete report 404 and leave it unchanged; the title
"Absent Title" is absent from the seed title-keyed collection, so its
handlers respond successfully without modifying anything. -/
theorem not_found_reporting_check :
    Project2.read_book_by_id 42 Project2.BOOKS = none ∧
    Project2.update_book_state
        ⟨some 42, "New Title", "New Author", "New Description", 3, 2010⟩
        Project2.BOOKS = (Project2.BOOKS, some ApiError.notFound) ∧
    Project2.delete_book_state 42 Project2.BOOKS =
      (Project2.BOOKS, some ApiError.notFound) ∧
    Project1.get_books_by_title_response "Absent Title" Project1.BOOKS =
      Except.ok none ∧
    Project1.delete_book_response "Absent Title" Project1.BOOKS =
      Except.ok Project1.BOOKS ∧
    Project1.update_book_response ⟨"Absent Title", "Nobody", "none"⟩
        Project1.BOOKS = Except.ok Project1.BOOKS :=
  ⟨not_found_reporting.1 _ _ (by decide),
   not_found_reporting.2.1 _ _ (by decide),
   not_found_reporting.2.2.1 _ _ (by decide),
   (not_found_reporting.2.2.2.1 _ _ (by decide)).1,
   (not_found_reporting.2.2.2.1 _ _ (by decide)).2,
   not_found_reporting.2.2.2.2 _ _ (by decide)⟩

/-- C8: in the id-keyed variant, an update or delete whose target id matches
no record raises 404 and the collection after the operation is exactly the
collection before it. -/
theorem missing_id_404_leaves_collection :
    ∀ (books : List Project2.Book) (r : Project2.BookRequest) (i : Int),
      ((∀ b ∈ books, r.id ≠ some b.id) →
        Project2.update_book_state r books = (books, some ApiError.notFound)) ∧
      ((∀ b ∈ books, b.id ≠ i) →
        Project2.delete_book_state i books = (books, some ApiError.notFound)) :=
  fun _ r i =>
    ⟨fun h => by
       unfold Project2.update_book_state
       rw [update_book2_none h],
     fun h => by
       unfold Project2.delete_book_state
       rw [delete_book2_none h]⟩

/-- C8, witness: id 10 (and a request with no id at all) match nothing in
the seed collection; both operations report 404 and leave it unchanged. -/
theorem missing_id_404_leaves_collection_check :
    Project2.update_book_state
        ⟨none, "New Title", "New Author", "New Description", 3, 2010⟩
        Project2.BOOKS = (Project2.BOOKS, some ApiError.notFound) ∧
    Project2.delete_book_state 10 Project2.BOOKS =
      (Project2.BOOKS, some ApiError.notFound) :=
  ⟨(missing_id_404_leaves_collection Project2.BOOKS
      ⟨none, "New Title", "New Author", "New Description", 3, 2010⟩ 10).1 (by decide),
   (missing_id_404_leaves_collection Project2.BOOKS
      ⟨none, "New Title", "New Author", "New Description", 3, 2010⟩ 10).2 (by decide)⟩

/-- C5, counterexample: with the empty string as the provided category
value, Python's `if category:` is false, so the list endpoint returns the
whole seed collection instead of the records whose category equals the empty
string under the case-insensitive predicate (there are none). -/
theorem empty_category_filter_returns_all :
    Project1.get_all_book (some "") Project1.BOOKS ≠
      Project1.BOOKS.filter (fun b => casefold b.category == casefold "") := by
  decide

/-- C5, amended: every filter endpoint returns exactly the subset matching
its predicate — category (case-insensitive) for every non-empty provided
value, author (case-insensitive), rating and published year for every
value; a missing or empty category value disables filtering and the whole
collection is returned. -/
theorem filters_return_exact_subset :
    (∀ (books : List Project1.Book) (c : String), c ≠ "" →
        Project1.get_all_book (some c) books =
          books.filter (fun b => casefold b.category == casefold c)) ∧
    (∀ books : List Project1.Book,
        Project1.get_all_book none books = books ∧
        Project1.get_all_book (some "") books = books) ∧
    (∀ (books : List Project1.Book) (a : String),
        Project1.get_books_by_author a books =
          books.filter (fun b => casefold b.author == casefold a)) ∧
    (∀ (books : List Project2.Book) (r : Int),
        Project2.read_book_by_rating r books =
          books.filter (fun b => b.rating == r)) ∧
    (∀ (books : List Project2.Book) (y : Int),
        Project2.read_book_by_published_year y books =
          books.filter (fun b => b.published_year == y)) := by
  refine ⟨?_, ?_, ?_, ?_, ?_⟩
  · intro books c hc
    simp only [Project1.get_all_book]
    rw [if_pos hc]
    exact (foldl_filter_eq _ books []).trans (List.nil_append _)
  · intro books
    refine ⟨rfl, ?_⟩
    simp only [Project1.get_all_book]
    rw [if_neg (fun h => h rfl)]
  · intro books a
    exact (foldl_filter_eq _ books []).trans (List.nil_append _)
  · intro books r
    exact (foldl_filter_eq _ books []).trans (List.nil_append _)
  · intro books y
    exact (foldl_filter_eq _ books []).trans (List.nil_append _)

/-- C5, witness: filtering the seed collections by category "MATH", author
"author two", rating 5 and year 2001 each returns exactly the matching
subset. -/
theorem filters_return_exact_subset_check :
    Project1.get_all_book (some "MATH") Project1.BOOKS =
      Project1.BOOKS.filter (fun b => casefold b.category == casefold "MATH") ∧
    Project1.get_books_by_author "author two" Project1.BOOKS =
      Project1.BOOKS.filter (fun b => casefold b.author == casefold "author two") ∧
    Project2.read_book_by_rating 5 Project2.BOOKS =
      Project2.BOOKS.filter (fun b => b.rating == 5) ∧
    Project2.read_book_by_published_year 2001 Project2.BOOKS =
      Project2.BOOKS.filter (fun b => b.published_year == 2001) :=
  ⟨filters_return_exact_subset.1 _ _ (by decide),
   filters_return_exact_subset.2.2.1 _ _,
   filters_return_exact_subset.2.2.2.1 _ _,
   filters_return_exact_subset.2.2.2.2 _ _⟩

/-- C6, counterexample: a request for the bare two-segment path
`/books/by_author` matches no literal route (the by_author route needs a
further segment), so dispatch falls through to the generic dynamic route and
binds `book_title = "by_author"`. -/
theorem bare_by_author_bound_as_book_title :
    Project1.dispatch Project1.Method.get ["books", "by_author"] =
      some (Project1.Handler.getBooksByTitle, [("book_title", "by_author")]) := by
  decide

/-- C6, amended: with routes matched in declaration order, `"count"` is
never bound as `book_title`: any request dispatched to the generic dynamic
route has the shape `/books/{t}` with `t ≠ "count"`, and requests to the
literal `/books/count` and to `/books/by_author/{a}` go to their literal
routes; only a path such as the bare `/books/by_author`, which no literal
route matches, is captured by the generic route. -/
theorem static_segments_not_captured :
    Project1.dispatch Project1.Method.get ["books", "count"] =
      some (Project1.Handler.countBooks, []) ∧
    (∀ a : String,
        Project1.dispatch Project1.Method.get ["books", "by_author", a] =
          some (Project1.Handler.getBooksByAuthor, [("author", a)])) ∧
    (∀ (path : List String) (bs : List (String × String)),
        Project1.dispatch Project1.Method.get path =
          some (Project1.Handler.getBooksByTitle, bs) →
        ∃ t : String, path = ["books", t] ∧ bs = [("book_title", t)] ∧ t ≠ "count") := by
  refine ⟨by decide, ?_, ?_⟩
  · intro a
    rfl
  · intro path bs h
    match path with
    | [] =>
        rw [show Project1.dispatch Project1.Method.get [] = none from rfl] at h
        exact Option.noConfusion h
    | [a] =>
        by_cases h1 : ("books" : String) = a
        · subst h1
          rw [show Project1.dispatch Project1.Method.get ["books"] =
              some (Project1.Handler.getAllBook, []) from rfl] at h
          simp at h
        · simp [Project1.dispatch, Project1.dispatchFrom, Project1.routes,
            Project1.matchSegs, beq_iff_eq, h1] at h
    | [a, b] =>
        by_cases h1 : ("books" : String) = a
        · subst h1
          by_cases h2 : ("count" : String) = b
          · subst h2
            rw [show Project1.dispatch Project1.Method.get ["books", "count"] =
                some (Project1.Handler.countBooks, []) from rfl] at h
            simp at h
          · have hd : Project1.dispatch Project1.Method.get ["books", b] =
                some (Project1.Handler.getBooksByTitle, [("book_title", b)]) := by
              simp [Project1.dispatch, Project1.dispatchFrom, Project1.routes,
                Project1.matchSegs, beq_iff_eq, h2]
            rw [hd] at h
            have h5 := Option.some.inj h
            have h6 := congrArg Prod.snd h5
            exact ⟨b, rfl, h6.symm, fun hb => h2 hb.symm⟩
        · by_cases h3 : ("author" : String) = a
          · subst h3
            rw [show Project1.dispatch Project1.Method.get ["author", b] =
                some (Project1.Handler.readAuthorCategoryByQuery, [("author", b)])
                from rfl] at h
            simp at h
          · simp [Project1.dispatch, Project1.dispatchFrom, Project1.routes,
              Project1.matchSegs, beq_iff_eq, h1, h3] at h
    | [a, b, c] =>
        by_cases h1 : ("books" : String) = a
        · subst h1
          by_cases h2 : ("by_author" : String) = b
          · subst h2
            rw [show Project1.dispatch Project1.Method.get ["books", "by_author", c] =
                some (Project1.Handler.getBooksByAuthor, [("author", c)])
                from rfl] at h
            simp at h
          · simp [Project1.dispatch, Project1.dispatchFrom, Project1.routes,
              Project1.matchSegs, beq_iff_eq, h2] at h
        · simp [Project1.dispatch, Project1.dispatchFrom, Project1.routes,
            Project1.matchSegs, beq_iff_eq, h1] at h
    | a :: b :: c :: d :: rest =>
        simp [Project1.dispatch, Project1.dispatchFrom, Project1.routes,
          Project1.matchSegs] at h

/-- C6, witness: the literal path `/books/count` dispatches to the count
handler, and `/books/by_author/author%20two` to the by-author handler, never
to the generic title route. -/
theorem static_segments_not_captured_check :
    Project1.dispatch Project1.Method.get ["books", "count"] =
      some (Project1.Handler.countBooks, []) ∧
    Project1.dispatch Project1.Method.get ["books", "by_author", "author two"] =
      some (Project1.Handler.getBooksByAuthor, [("author", "author two")]) ∧
    ("Title One" : String) ≠ "count" := by
  refine ⟨static_segments_not_captured.1,
    static_segments_not_captured.2.1 "author two", ?_⟩
  obtain ⟨t, hpath, hbs, hcount⟩ :=
    static_segments_not_captured.2.2 ["books", "Title One"]
      [("book_title", "Title One")] (by decide)
  injection hpath with h1 h2
  injection h2 with h3 h4
  exact fun hx => hcount (by rw [← h3]; exact hx)

/-- C7: a create or update request of the id-keyed variant is rejected by
field-constraint validation — leaving the collection unchanged — unless the
title has at least 3 characters, the author at least 1, the description
between 1 and 100 characters, the rating is between 1 and 5, and the
published year between 1000 and 2100; every request meeting the bounds
passes validation (create then appends; update proceeds to the handler and
can report only not-found, never a validation rejection). -/
theorem field_constraint_validation (books : List Project2.Book)
    (r : Project2.BookRequest) :
    (Project2.bookRequestValid r = true ↔
      (3 ≤ r.title.length ∧ 1 ≤ r.author.length ∧ 1 ≤ r.description.length ∧
        r.description.length ≤ 100 ∧ 1 ≤ r.rating ∧ r.rating ≤ 5 ∧
        1000 ≤ r.published_year ∧ r.published_year ≤ 2100)) ∧
    (¬ Project2.bookRequestValid r = true →
      Project2.post_create_book r books = (books, some ApiError.validation) ∧
      Project2.put_update_book r books = (books, some ApiError.validation)) ∧
    (Project2.bookRequestValid r = true →
      Project2.post_create_book r books = (Project2.create_book r books, none) ∧
      (Project2.put_update_book r books).2 ≠ some ApiError.validation) := by
  refine ⟨?_, ?_, ?_⟩
  · simp [Project2.bookRequestValid, and_assoc]
  · intro h
    unfold Project2.post_create_book Project2.put_update_book
    rw [if_neg h, if_neg h]
    exact ⟨rfl, rfl⟩
  · intro h
    unfold Project2.post_create_book Project2.put_update_book
    rw [if_pos h, if_pos h]
    refine ⟨rfl, ?_⟩
    unfold Project2.update_book_state
    cases Project2.update_book r books <;> simp

/-- C7, witness: the documentation's example request meets every bound and
is accepted; a request with a 2-character title, empty author and
description, rating 6 and year 999 is rejected by validation and the
collection is unchanged. -/
theorem field_constraint_validation_check :
    Project2.post_create_book exampleReq Project2.BOOKS =
      (Project2.create_book exampleReq Project2.BOOKS, none) ∧
    Project2.post_create_book invalidReq Project2.BOOKS =
      (Project2.BOOKS, some ApiError.validation) ∧
    Project2.put_update_book invalidReq Project2.BOOKS =
      (Project2.BOOKS, some ApiError.validation) :=
  ⟨((field_constraint_validation Project2.BOOKS exampleReq).2.2 (by decide)).1,
   ((field_constraint_validation Project2.BOOKS invalidReq).2.1 (by decide)).1,
   ((field_constraint_validation Project2.BOOKS invalidReq).2.1 (by decide)).2⟩

/-- C10: the title-keyed create appends unconditionally — no uniqueness
check, so duplicate titles can exist — and get-by-title returns the earliest
case-insensitive match in collection order, even when later matches
exist. -/
theorem duplicate_titles_earliest_match :
    (∀ (books : List Project1.Book) (b : Project1.Book),
        Project1.create_book b books = books ++ [b]) ∧
    (∀ (pre post : List Project1.Book) (b : Project1.Book) (t : String),
        (∀ x ∈ pre, casefold x.title ≠ casefold t) →
        casefold b.title = casefold t →
        Project1.get_books_by_title t (pre ++ b :: post) = some b) :=
  ⟨fun _ _ => rfl,
   fun pre post b t hpre hb => get_books_by_title_found pre post b t hpre hb⟩

/-- C10, witness: appending a second "Title Two" record to the seed gives a
collection with a duplicate title, and looking up "title TWO" returns the
original (earliest) record, not the appended duplicate. -/
theorem duplicate_titles_earliest_match_check :
    Project1.create_book ⟨"Title Two", "Author X", "math"⟩ Project1.BOOKS =
      Project1.BOOKS ++ [⟨"Title Two", "Author X", "math"⟩] ∧
    Project1.get_books_by_title "title TWO"
        ([⟨"Title One", "Author One", "science"⟩] ++
          ⟨"Title Two", "Author Two", "science"⟩ ::
            [⟨"Title Three", "Author Three", "history"⟩,
             ⟨"Title Four", "Author Four", "math"⟩,
             ⟨"Title Five", "Author Five", "math"⟩,
             ⟨"Title Six", "Author Two", "math"⟩,
             ⟨"Title Two", "Author X", "math"⟩]) =
      some ⟨"Title Two", "Author Two", "science"⟩ :=
  ⟨duplicate_titles_earliest_match.1 _ _,
   duplicate_titles_earliest_match.2 _ _ _ _ (by decide) (by decide)⟩

end LearnFastapi
